import Mathlib

set_option maxHeartbeats 1000000

/-!
Shallow embedding of the membership lifecycle and interest-change audit
subsystem of the Together Culture CRM repository.

The repository files under src/ are admin.py, forms.py, tests.py and urls.py.
The model layer (models.py, holding Member.approve_membership,
Member.reject_membership and the interest mutation path) and the view layer
(views.py, holding the registration workflow) are not under src/; following
the spec, those operations are modelled from the specification text and each
such definition carries a doc comment starting with "Modelled from the spec:".
Everything else is translated directly from the source files.

Machine state is passed explicitly: a lifecycle operation takes the member
row and the current activity log and returns the updated row and log, or an
error. Timestamps are natural numbers.
-/

/-- The four member statuses, from Member.STATUS_CHOICES as displayed in
src/admin.py (status_colors mapping: pending, approved, rejected, inactive). -/
inductive Status where
  | pending
  | approved
  | rejected
  | inactive
deriving DecidableEq

/-- An account in the external Account Directory (django auth User):
identifier, email and the staff flag, the parts the lifecycle engine reads. -/
structure Account where
  id : Nat
  email : String
  is_staff : Bool
deriving DecidableEq

/-- A member profile row: reference to its account, status, bio, approval
metadata and the set of associated interest identifiers. -/
structure Member where
  id : Nat
  user : Nat
  status : Status
  bio : String
  date_approved : Option Nat
  approved_by : Option Nat
  interests : List Nat
deriving DecidableEq

/-- One entry of the append-only interest history log. -/
structure InterestHistory where
  member : Nat
  interest : Nat
  action : String
  changed_by : Option Nat
  timestamp : Nat
  notes : String
deriving DecidableEq

/-- One entry of the append-only activity log. -/
structure ActivityLog where
  user : Option Nat
  action : String
  target_member : Option Nat
  description : String
  timestamp : Nat
deriving DecidableEq

/-- The error taxonomy of the spec (section 7). -/
inductive CrmError where
  | DuplicateEmail
  | ValidationError
  | InvalidTransition
  | Unauthorized
  | NotFound
deriving DecidableEq

/-- The activity entry appended by an approval: action "approval", user the
acting account, target the approved member. -/
def approvalEntry (acting : Account) (m : Member) (now : Nat) : ActivityLog :=
  { user := some acting.id, action := "approval", target_member := some m.id,
    description := "", timestamp := now }

/-- The activity entry appended by a rejection: action "rejection". -/
def rejectionEntry (acting : Account) (m : Member) (now : Nat) : ActivityLog :=
  { user := some acting.id, action := "rejection", target_member := some m.id,
    description := "", timestamp := now }

/-- The member row after a successful approval: status approved, approval
timestamp and approving account recorded. -/
def approvedVersion (m : Member) (acting : Account) (now : Nat) : Member :=
  { m with status := Status.approved, date_approved := some now,
           approved_by := some acting.id }

/-- Modelled from the spec: Member.approve_membership is defined in the
repository models.py, which is not under src/ (src/tests.py line 76 calls
it). Spec section 4.1: requires a staff acting account, else Unauthorized;
requires a pending status, else InvalidTransition; on success sets status to
approved, date_approved to now, approved_by to the acting account, and
appends one ActivityLogEntry with action "approval". -/
def approve_membership (m : Member) (acting : Account) (now : Nat)
    (log : List ActivityLog) : Except CrmError (Member × List ActivityLog) :=
  if acting.is_staff = false then Except.error CrmError.Unauthorized
  else if m.status = Status.pending then
    Except.ok (approvedVersion m acting now, log ++ [approvalEntry acting m now])
  else Except.error CrmError.InvalidTransition

/-- Modelled from the spec: Member.reject_membership is defined in the
repository models.py, which is not under src/ (src/tests.py line 84 calls
it). Spec section 4.1: requires staff, requires pending; on success sets
status to rejected and appends one ActivityLogEntry with action
"rejection". -/
def reject_membership (m : Member) (acting : Account) (now : Nat)
    (log : List ActivityLog) : Except CrmError (Member × List ActivityLog) :=
  if acting.is_staff = false then Except.error CrmError.Unauthorized
  else if m.status = Status.pending then
    Except.ok ({ m with status := Status.rejected },
               log ++ [rejectionEntry acting m now])
  else Except.error CrmError.InvalidTransition

/-- Modelled from the spec: the request handler surfaces a lifecycle error to
the caller and performs no write, so on an error the member row and the
activity log are unchanged. -/
def runApprove (m : Member) (acting : Account) (now : Nat)
    (log : List ActivityLog) : Member × List ActivityLog × Option CrmError :=
  match approve_membership m acting now log with
  | Except.ok (m2, log2) => (m2, log2, none)
  | Except.error e => (m, log, some e)

/-- Modelled from the spec: the rejection counterpart of runApprove. -/
def runReject (m : Member) (acting : Account) (now : Nat)
    (log : List ActivityLog) : Member × List ActivityLog × Option CrmError :=
  match reject_membership m acting now log with
  | Except.ok (m2, log2) => (m2, log2, none)
  | Except.error e => (m, log, some e)

/-- From src/admin.py, MemberAdmin.approve_members (lines 138 to 149): the
bulk action filters the queryset to status pending, calls approve_membership
with the requesting user on each member of the filtered set, incrementing a
counter after each call, and reports the counter. Members not in pending
state are not touched. An exception raised by approve_membership would
propagate, so the embedding threads the error monadically. -/
def approve_members (acting : Account) (now : Nat) :
    List Member → List ActivityLog → Nat →
    Except CrmError (List Member × List ActivityLog × Nat)
  | [], log, n => Except.ok ([], log, n)
  | m :: ms, log, n =>
    if m.status = Status.pending then
      match approve_membership m acting now log with
      | Except.error e => Except.error e
      | Except.ok (m2, log2) =>
        match approve_members acting now ms log2 (n + 1) with
        | Except.error e => Except.error e
        | Except.ok (ms2, log3, n2) => Except.ok (m2 :: ms2, log3, n2)
    else
      match approve_members acting now ms log n with
      | Except.error e => Except.error e
      | Except.ok (ms2, log2, n2) => Except.ok (m :: ms2, log2, n2)

/-- From src/admin.py, MemberAdmin.reject_members (lines 151 to 158): the
bulk action runs a direct queryset update, setting status rejected on every
member whose status is pending and reporting the number of rows matched. It
does not call reject_membership, so no ActivityLogEntry is appended and the
activity log is returned unchanged. -/
def reject_members (qs : List Member) (log : List ActivityLog) :
    List Member × List ActivityLog × Nat :=
  (qs.map (fun m =>
     if m.status = Status.pending then { m with status := Status.rejected } else m),
   log,
   (qs.filter (fun m => m.status = Status.pending)).length)

/-- The interest history entry appended by a successful interest addition. -/
def addedEntry (m : Member) (i : Nat) (acting : Option Nat) (now : Nat) :
    InterestHistory :=
  { member := m.id, interest := i, action := "added", changed_by := acting,
    timestamp := now, notes := "" }

/-- Modelled from the spec: the interest mutation path addInterest lives in
the repository models.py and views.py, which are not under src/. Spec
section 4.2: requires the interest to exist in the Interest Catalog; a no-op
that logs nothing when the interest is already associated; otherwise adds
the interest to the profile and appends one InterestHistoryEntry with action
"added" and changed_by the acting account or null. -/
def addInterest (m : Member) (i : Nat) (catalog : List Nat)
    (acting : Option Nat) (now : Nat) (hist : List InterestHistory) :
    Except CrmError (Member × List InterestHistory) :=
  if i ∈ catalog then
    if i ∈ m.interests then Except.ok (m, hist)
    else Except.ok ({ m with interests := m.interests ++ [i] },
                    hist ++ [addedEntry m i acting now])
  else Except.error CrmError.NotFound

/-- Modelled from the spec: registration calls addInterest once per selected
interest (spec section 4.3, step d), threading the profile and history. -/
def addInterestList (catalog : List Nat) (acting : Option Nat) (now : Nat) :
    List Nat → Member → List InterestHistory →
    Except CrmError (Member × List InterestHistory)
  | [], m, h => Except.ok (m, h)
  | i :: rest, m, h =>
    match addInterest m i catalog acting now h with
    | Except.error e => Except.error e
    | Except.ok (m2, h2) => addInterestList catalog acting now rest m2 h2

/-- The parts of an inbound admin request the permission methods read: the
model permissions held by the requesting user (a superuser holds all of
them). -/
structure AdminRequest where
  can_delete_interesthistory : Bool
  can_delete_activitylog : Bool
deriving DecidableEq

namespace InterestHistoryAdmin

/-- From src/admin.py, InterestHistoryAdmin.has_add_permission (lines 187 to
188): always denied. -/
def has_add_permission (_r : AdminRequest) : Bool := false

/-- From src/admin.py, InterestHistoryAdmin.has_change_permission (lines 190
to 191): always denied. -/
def has_change_permission (_r : AdminRequest) : Bool := false

/-- From src/admin.py: InterestHistoryAdmin overrides add and change
permission but not delete permission, so the framework default applies:
deletion is permitted exactly when the requesting user holds the delete
permission for the model. -/
def has_delete_permission (r : AdminRequest) : Bool :=
  r.can_delete_interesthistory

end InterestHistoryAdmin

namespace ActivityLogAdmin

/-- From src/admin.py, ActivityLogAdmin.has_add_permission (lines 205 to
206): always denied. -/
def has_add_permission (_r : AdminRequest) : Bool := false

/-- From src/admin.py, ActivityLogAdmin.has_change_permission (lines 208 to
209): always denied. -/
def has_change_permission (_r : AdminRequest) : Bool := false

/-- From src/admin.py: ActivityLogAdmin overrides add and change permission
but not delete permission, so the framework default applies: deletion is
permitted exactly when the requesting user holds the delete permission for
the model. -/
def has_delete_permission (r : AdminRequest) : Bool :=
  r.can_delete_activitylog

end ActivityLogAdmin

/-- The admin delete action on the interest history log: removes the chosen
entry when the admin grants delete permission for the request, otherwise
leaves the log unchanged. -/
def admin_delete_history_entry (r : AdminRequest)
    (hist : List InterestHistory) (i : Nat) : List InterestHistory :=
  if InterestHistoryAdmin.has_delete_permission r then hist.eraseIdx i
  else hist

/-- The admin delete action on the activity log: removes the chosen entry
when the admin grants delete permission for the request, otherwise leaves
the log unchanged. -/
def admin_delete_activity_entry (r : AdminRequest)
    (log : List ActivityLog) (i : Nat) : List ActivityLog :=
  if ActivityLogAdmin.has_delete_permission r then log.eraseIdx i
  else log

/-- The raw input of the member registration form (src/forms.py,
MemberRegistrationForm): required text fields, the optional phone number and
picture are kept as options, the selected interests as a list of interest
identifiers, and the terms checkbox. -/
structure RegistrationInput where
  first_name : String
  last_name : String
  email : String
  password : String
  password_confirm : String
  bio : String
  phone_number : Option String
  interests : List Nat
  terms_accepted : Bool
deriving DecidableEq

/-- Membership test against the Account Directory, as in clean_email:
User.objects.filter(email=email).exists(). -/
def emailExists (accounts : List Account) (e : String) : Bool :=
  accounts.any (fun a => a.email == e)

/-- From src/forms.py, MemberRegistrationForm.clean_email (lines 102 to
107): raises a validation error when an account with the email already
exists, otherwise returns the email unchanged. -/
def clean_email (accounts : List Account) (e : String) :
    Except CrmError String :=
  if emailExists accounts e then Except.error CrmError.DuplicateEmail
  else Except.ok e

/-- From src/forms.py, MemberRegistrationForm.clean_password (lines 109 to
113): no validation, the password is returned unchanged. -/
def clean_password (p : String) : String := p

/-- Field-level validation of the registration form, from the field
declarations in src/forms.py: first_name and last_name are required with
max_length 30, email, password, password_confirm and bio are required,
phone_number is optional with max_length 20, interests is required (at
least one choice) and terms_accepted is a required checkbox. -/
def fields_required_ok (inp : RegistrationInput) : Bool :=
  (inp.first_name != "") && (inp.first_name.length ≤ 30) &&
  (inp.last_name != "") && (inp.last_name.length ≤ 30) &&
  (inp.email != "") &&
  (inp.password != "") &&
  (inp.password_confirm != "") &&
  (inp.bio != "") &&
  (match inp.phone_number with
   | none => true
   | some p => p.length ≤ 20) &&
  (!inp.interests.isEmpty) &&
  inp.terms_accepted

/-- Form validity, combining the field-level checks with clean_email (email
unique in the directory) and the form-wide clean (lines 115 to 130 of
src/forms.py): the two password fields must match and at least one interest
must be selected. -/
def registration_is_valid (accounts : List Account)
    (inp : RegistrationInput) : Bool :=
  fields_required_ok inp &&
  !(emailExists accounts inp.email) &&
  (inp.password == inp.password_confirm) &&
  !inp.interests.isEmpty

/-- The persistent state the registration workflow touches. -/
structure CrmState where
  accounts : List Account
  members : List Member
  history : List InterestHistory
  activity : List ActivityLog
deriving DecidableEq

/-- Modelled from the spec: the registration workflow (spec section 4.3)
lives in the repository views.py, which is not under src/. Given the form
input it validates the form (the embedded src/forms.py checks); on failure
nothing is created, the failure being DuplicateEmail when the email already
exists and a validation error otherwise. On success it creates an Account,
creates a MemberProfile with status pending, and calls addInterest once per
selected interest with changed_by null. -/
def registerMember (st : CrmState) (inp : RegistrationInput)
    (catalog : List Nat) (now newAccId newMemId : Nat) :
    Except CrmError CrmState :=
  if registration_is_valid st.accounts inp then
    let acc : Account := { id := newAccId, email := inp.email, is_staff := false }
    let m0 : Member := { id := newMemId, user := newAccId,
                         status := Status.pending, bio := inp.bio,
                         date_approved := none, approved_by := none,
                         interests := [] }
    match addInterestList catalog none now inp.interests m0 st.history with
    | Except.error e => Except.error e
    | Except.ok (m1, hist1) =>
      Except.ok { accounts := st.accounts ++ [acc],
                  members := st.members ++ [m1],
                  history := hist1,
                  activity := st.activity }
  else if emailExists st.accounts inp.email then
    Except.error CrmError.DuplicateEmail
  else Except.error CrmError.ValidationError

/-- Modelled from the spec: a failed registration is fully rolled back, so
on an error the state is returned unchanged. -/
def runRegister (st : CrmState) (inp : RegistrationInput)
    (catalog : List Nat) (now newAccId newMemId : Nat) :
    CrmState × Option CrmError :=
  match registerMember st inp catalog now newAccId newMemId with
  | Except.ok st2 => (st2, none)
  | Except.error e => (st, some e)

/-- A staff account, as in src/tests.py setUp. -/
def adminAccount : Account :=
  { id := 1, email := "admin@example.com", is_staff := true }

/-- A non-staff account, as in src/tests.py setUp. -/
def plainAccount : Account :=
  { id := 2, email := "member@example.com", is_staff := false }

/-- A pending member profile, as created in src/tests.py setUp. -/
def pendingMember : Member :=
  { id := 10, user := 2, status := Status.pending, bio := "Test bio for user",
    date_approved := none, approved_by := none, interests := [] }

/-- An already approved member profile. -/
def approvedMember : Member :=
  { id := 11, user := 3, status := Status.approved, bio := "Member bio",
    date_approved := some 5, approved_by := some 1, interests := [] }

/-- A second pending member profile. -/
def pendingMember2 : Member :=
  { id := 12, user := 4, status := Status.pending, bio := "Another bio",
    date_approved := none, approved_by := none, interests := [] }

/-- A sample interest history entry. -/
def sampleHistEntry : InterestHistory :=
  { member := 10, interest := 1, action := "added", changed_by := none,
    timestamp := 0, notes := "" }

/-- A sample activity log entry. -/
def sampleLogEntry : ActivityLog :=
  { user := some 1, action := "login", target_member := none,
    description := "", timestamp := 0 }

/-- A complete, well-formed registration input, as in
src/tests.py test_valid_form. -/
def sampleInput : RegistrationInput :=
  { first_name := "John", last_name := "Doe", email := "john@example.com",
    password := "strongpassword123", password_confirm := "strongpassword123",
    bio := "Test bio content", phone_number := none, interests := [1, 2],
    terms_accepted := true }

/-- A sample persistent state holding the two accounts and the pending
member. -/
def sampleState : CrmState :=
  { accounts := [adminAccount, plainAccount], members := [pendingMember],
    history := [], activity := [] }

/-- The sample registration input with the email of an existing account. -/
def dupEmailInput : RegistrationInput :=
  { sampleInput with email := "admin@example.com" }

/-- The sample registration input with no interest selected. -/
def noInterestInput : RegistrationInput :=
  { sampleInput with interests := [] }

/-- The sample registration input with mismatched password fields, as in
src/tests.py test_password_mismatch. -/
def mismatchInput : RegistrationInput :=
  { sampleInput with password := "password123",
                     password_confirm := "different123" }

/-- Characterization of the bulk approve action for a staff acting account:
it maps pending members to their approved version, appends one approval
entry per pending member in order, and adds the number of pending members to
the running counter. -/
theorem approve_members_spec (acting : Account) (hs : acting.is_staff = true)
    (now : Nat) :
    ∀ (qs : List Member) (log : List ActivityLog) (n : Nat),
    approve_members acting now qs log n =
      Except.ok
        (qs.map (fun m =>
           if m.status = Status.pending then approvedVersion m acting now else m),
         log ++ (qs.filter (fun m => m.status = Status.pending)).map
                  (fun m => approvalEntry acting m now),
         n + (qs.filter (fun m => m.status = Status.pending)).length) := by
  intro qs
  induction qs with
  | nil => intro log n; simp [approve_members]
  | cons m ms ih =>
    intro log n
    by_cases hp : m.status = Status.pending
    · simp [approve_members, hp, approve_membership, hs, ih,
            List.filter_cons, List.append_assoc,
            Nat.add_assoc, Nat.add_comm, Nat.add_left_comm]
    · simp [approve_members, hp, ih, List.filter_cons]



/-- C1: approve on a pending profile by a staff account transitions it to
approved, sets date_approved to a non-null timestamp, sets approved_by to
the acting account, and appends exactly one ActivityLogEntry; a second
approve on the now approved profile fails with InvalidTransition and
appends no further entry. -/
theorem approve_pending_then_reapprove_fails (m : Member) (acting : Account)
    (now now2 : Nat) (log : List ActivityLog)
    (hp : m.status = Status.pending) (hs : acting.is_staff = true) :
    runApprove m acting now log =
      (approvedVersion m acting now, log ++ [approvalEntry acting m now],
       none) ∧
    (approvedVersion m acting now).status = Status.approved ∧
    (approvedVersion m acting now).date_approved = some now ∧
    (approvedVersion m acting now).approved_by = some acting.id ∧
    (log ++ [approvalEntry acting m now]).length = log.length + 1 ∧
    runApprove (approvedVersion m acting now) acting now2
        (log ++ [approvalEntry acting m now]) =
      (approvedVersion m acting now, log ++ [approvalEntry acting m now],
       some CrmError.InvalidTransition) := by
  refine ⟨?_, rfl, rfl, rfl, by simp, ?_⟩
  · simp [runApprove, approve_membership, hp, hs]
  · simp [runApprove, approve_membership, approvedVersion, hs]

/-- Witness for C1 at the concrete pending member and staff account of the
test suite. -/
theorem approve_pending_then_reapprove_fails_witness :
    pendingMember.status = Status.pending ∧
    adminAccount.is_staff = true ∧
    runApprove pendingMember adminAccount 3 [] =
      (approvedVersion pendingMember adminAccount 3,
       [approvalEntry adminAccount pendingMember 3], none) ∧
    runApprove (approvedVersion pendingMember adminAccount 3) adminAccount 4
        [approvalEntry adminAccount pendingMember 3] =
      (approvedVersion pendingMember adminAccount 3,
       [approvalEntry adminAccount pendingMember 3],
       some CrmError.InvalidTransition) := by
  have h := approve_pending_then_reapprove_fails pendingMember adminAccount
    3 4 [] rfl rfl
  exact ⟨rfl, rfl, by simpa using h.1, by simpa using h.2.2.2.2.2⟩

/-- C2: for a staff acting account, bulk approve applies the single-item
approve to exactly the pending members, leaves every other member untouched
with no activity entry appended for it, and reports the number of members
actually changed. -/
theorem bulk_approve_pending_only (acting : Account) (now : Nat)
    (qs : List Member) (log : List ActivityLog)
    (hs : acting.is_staff = true) :
    approve_members acting now qs log 0 =
      Except.ok
        (qs.map (fun m =>
           if m.status = Status.pending then approvedVersion m acting now
           else m),
         log ++ (qs.filter (fun m => m.status = Status.pending)).map
                  (fun m => approvalEntry acting m now),
         (qs.filter (fun m => m.status = Status.pending)).length) := by
  have h := approve_members_spec acting hs now qs log 0
  simpa using h

/-- Witness for C2 at the concrete input of the spec: bulk approve of
[p1(pending), p2(approved), p3(pending)] reports 2, transitions p1 and p3,
leaves p2 untouched, and appends entries targeting only p1 and p3. -/
theorem bulk_approve_pending_only_witness :
    approve_members adminAccount 7
        [pendingMember, approvedMember, pendingMember2] [] 0 =
      Except.ok
        ([approvedVersion pendingMember adminAccount 7, approvedMember,
          approvedVersion pendingMember2 adminAccount 7],
         [approvalEntry adminAccount pendingMember 7,
          approvalEntry adminAccount pendingMember2 7],
         2) := by
  have h := bulk_approve_pending_only adminAccount 7
    [pendingMember, approvedMember, pendingMember2] [] rfl
  simpa [pendingMember, approvedMember, pendingMember2] using h

/-- C3 counterexample: bulk reject of a single pending member reports one
member changed yet appends no ActivityLogEntry at all, in particular not
one with action rejection per rejected member. -/
theorem bulk_reject_logs_nothing_counterexample :
    (reject_members [pendingMember] []).2.2 = 1 ∧
    (reject_members [pendingMember] []).1 =
      [{ pendingMember with status := Status.rejected }] ∧
    ¬ (((reject_members [pendingMember] []).2.1.filter
          (fun e => e.action == "rejection")).length = 1) := by
  refine ⟨rfl, rfl, by decide⟩

/-- C3 amended: bulk reject performs a direct update, setting status
rejected on exactly the pending members of the input and reporting their
number, but it does not apply the single-item reject: the activity log is
returned unchanged, with no rejection entry appended. -/
theorem bulk_reject_updates_without_logging (qs : List Member)
    (log : List ActivityLog) :
    (reject_members qs log).2.1 = log ∧
    (reject_members qs log).2.2 =
      (qs.filter (fun m => m.status = Status.pending)).length ∧
    (reject_members qs log).1 =
      qs.map (fun m =>
        if m.status = Status.pending then { m with status := Status.rejected }
        else m) :=
  ⟨rfl, rfl, rfl⟩

/-- C4: registration with an email already present in the Account Directory
fails with DuplicateEmail and leaves the whole state unchanged: no Account,
no MemberProfile and no InterestHistoryEntry is created. -/
theorem duplicate_email_rolls_back (st : CrmState) (inp : RegistrationInput)
    (catalog : List Nat) (now a b : Nat)
    (h : emailExists st.accounts inp.email = true) :
    runRegister st inp catalog now a b = (st, some CrmError.DuplicateEmail) := by
  have hv : registration_is_valid st.accounts inp = false := by
    simp [registration_is_valid, h]
  simp [runRegister, registerMember, hv, h]

/-- Witness for C4: registering with the email of the existing admin account
fails with DuplicateEmail and returns the state unchanged. -/
theorem duplicate_email_rolls_back_witness :
    emailExists sampleState.accounts dupEmailInput.email = true ∧
    runRegister sampleState dupEmailInput [1, 2] 0 100 200 =
      (sampleState, some CrmError.DuplicateEmail) :=
  ⟨rfl, duplicate_email_rolls_back sampleState dupEmailInput [1, 2] 0 100 200
     rfl⟩

/-- C5: approve and reject by a non-staff acting account both fail with
Unauthorized and leave the member row, in particular its status, and the
activity log unchanged. -/
theorem nonstaff_approve_reject_unauthorized (m : Member) (acting : Account)
    (now : Nat) (log : List ActivityLog) (hs : acting.is_staff = false) :
    runApprove m acting now log = (m, log, some CrmError.Unauthorized) ∧
    runReject m acting now log = (m, log, some CrmError.Unauthorized) := by
  constructor
  · simp [runApprove, approve_membership, hs]
  · simp [runReject, reject_membership, hs]

/-- Witness for C5 at the concrete non-staff account and pending member. -/
theorem nonstaff_approve_reject_unauthorized_witness :
    plainAccount.is_staff = false ∧
    runApprove pendingMember plainAccount 3 [] =
      (pendingMember, [], some CrmError.Unauthorized) ∧
    runReject pendingMember plainAccount 3 [] =
      (pendingMember, [], some CrmError.Unauthorized) := by
  have h := nonstaff_approve_reject_unauthorized pendingMember plainAccount
    3 [] rfl
  exact ⟨rfl, h.1, h.2⟩

/-- C6: adding an interest that is in the catalog and not yet associated
adds exactly one association and appends exactly one history entry, and the
second call with the same interest is a no-op on the profile that appends no
history entry. -/
theorem add_interest_twice_idempotent (m : Member) (i : Nat)
    (catalog : List Nat) (acting : Option Nat) (now now2 : Nat)
    (hist : List InterestHistory) (hc : i ∈ catalog)
    (hn : i ∉ m.interests) :
    addInterest m i catalog acting now hist =
      Except.ok ({ m with interests := m.interests ++ [i] },
                 hist ++ [addedEntry m i acting now]) ∧
    ({ m with interests := m.interests ++ [i] } : Member).interests.count i
      = 1 ∧
    (hist ++ [addedEntry m i acting now]).length = hist.length + 1 ∧
    addInterest { m with interests := m.interests ++ [i] } i catalog acting
        now2 (hist ++ [addedEntry m i acting now]) =
      Except.ok ({ m with interests := m.interests ++ [i] },
                 hist ++ [addedEntry m i acting now]) := by
  refine ⟨?_, ?_, by simp, ?_⟩
  · simp [addInterest, hc, hn]
  · simp [List.count_append, List.count_eq_zero.mpr hn]
  · have hmem : i ∈ m.interests ++ [i] := by simp
    simp [addInterest, hc, hmem]

/-- Witness for C6 at a concrete profile, catalog and interest. -/
theorem add_interest_twice_idempotent_witness :
    (1 : Nat) ∈ [1, 2] ∧ (1 : Nat) ∉ pendingMember.interests ∧
    addInterest pendingMember 1 [1, 2] none 3 [] =
      Except.ok ({ pendingMember with interests := [1] },
                 [addedEntry pendingMember 1 none 3]) ∧
    addInterest { pendingMember with interests := [1] } 1 [1, 2] none 4
        [addedEntry pendingMember 1 none 3] =
      Except.ok ({ pendingMember with interests := [1] },
                 [addedEntry pendingMember 1 none 3]) := by
  have h := add_interest_twice_idempotent pendingMember 1 [1, 2] none 3 4 []
    (by decide) (by decide)
  exact ⟨by decide, by decide, by simpa [pendingMember] using h.1,
         by simpa [pendingMember] using h.2.2.2⟩

/-- C7: a registration input with zero interests selected fails validation
and the failure creates nothing: the state comes back unchanged. -/
theorem zero_interests_rejected (st : CrmState) (inp : RegistrationInput)
    (catalog : List Nat) (now a b : Nat) (h : inp.interests = []) :
    (runRegister st inp catalog now a b).1 = st ∧
    (runRegister st inp catalog now a b).2.isSome = true := by
  have hv : registration_is_valid st.accounts inp = false := by
    simp [registration_is_valid, h]
  by_cases he : emailExists st.accounts inp.email
  · simp [runRegister, registerMember, hv, he]
  · simp [runRegister, registerMember, hv, he]

/-- Witness for C7: the sample input with no interest selected fails and
leaves the sample state unchanged. -/
theorem zero_interests_rejected_witness :
    noInterestInput.interests = [] ∧
    (runRegister sampleState noInterestInput [1, 2] 0 100 200).1 =
      sampleState ∧
    (runRegister sampleState noInterestInput [1, 2] 0 100 200).2.isSome =
      true := by
  have h := zero_interests_rejected sampleState noInterestInput [1, 2]
    0 100 200 rfl
  exact ⟨rfl, h.1, h.2⟩

/-- C8 counterexample: a request holding the model delete permissions is
granted deletion by both log admins, and the delete action then removes an
existing entry from each log, so the logs are not never-deleted. -/
theorem logs_deletable_counterexample :
    InterestHistoryAdmin.has_delete_permission ⟨true, true⟩ = true ∧
    ActivityLogAdmin.has_delete_permission ⟨true, true⟩ = true ∧
    admin_delete_history_entry ⟨true, true⟩ [sampleHistEntry] 0 = [] ∧
    admin_delete_activity_entry ⟨true, true⟩ [sampleLogEntry] 0 = [] :=
  ⟨rfl, rfl, rfl, rfl⟩

/-- C8 amended: the two log admins deny add and change permission on every
request, so entries are never created or mutated through them; but neither
disables deletion, so the delete action removes an entry exactly when the
request holds the delete permission for the model. -/
theorem logs_add_change_denied_delete_possible (r : AdminRequest)
    (e : InterestHistory) (a : ActivityLog) :
    InterestHistoryAdmin.has_add_permission r = false ∧
    InterestHistoryAdmin.has_change_permission r = false ∧
    ActivityLogAdmin.has_add_permission r = false ∧
    ActivityLogAdmin.has_change_permission r = false ∧
    admin_delete_history_entry r [e] 0 =
      (if r.can_delete_interesthistory then [] else [e]) ∧
    admin_delete_activity_entry r [a] 0 =
      (if r.can_delete_activitylog then [] else [a]) := by
  refine ⟨rfl, rfl, rfl, rfl, ?_, ?_⟩
  · by_cases hd : r.can_delete_interesthistory <;>
      simp [admin_delete_history_entry,
            InterestHistoryAdmin.has_delete_permission, hd]
  · by_cases hd : r.can_delete_activitylog <;>
      simp [admin_delete_activity_entry,
            ActivityLogAdmin.has_delete_permission, hd]

/-- C9: the password field validation returns every password unchanged, and
form validity does not depend on the content of a matching non-empty
password pair: any two such pairs validate identically. -/
theorem password_policy_absent (accounts : List Account)
    (inp : RegistrationInput) (p q : String) (hp : p ≠ "") (hq : q ≠ "") :
    clean_password p = p ∧
    registration_is_valid accounts
        { inp with password := p, password_confirm := p } =
      registration_is_valid accounts
        { inp with password := q, password_confirm := q } := by
  refine ⟨rfl, ?_⟩
  have hp2 : (p != "") = true := bne_iff_ne.mpr hp
  have hq2 : (q != "") = true := bne_iff_ne.mpr hq
  simp [registration_is_valid, fields_required_ok, hp2, hq2]

/-- Witness for C9: a one-letter password and a long symbol-laden password
validate identically on the sample input. -/
theorem password_policy_absent_witness :
    ("x" : String) ≠ "" ∧
    ("a-very-long-password-with-symbols-!?" : String) ≠ "" ∧
    clean_password "x" = "x" ∧
    registration_is_valid []
        { sampleInput with password := "x", password_confirm := "x" } =
      registration_is_valid []
        { sampleInput with password := "a-very-long-password-with-symbols-!?",
                           password_confirm :=
                             "a-very-long-password-with-symbols-!?" } := by
  have h := password_policy_absent [] sampleInput "x"
    "a-very-long-password-with-symbols-!?" (by decide) (by decide)
  exact ⟨by decide, by decide, h.1, h.2⟩

/-- C10: an input with the terms checkbox not accepted, or with two present
but different password fields, is invalid, and the failed registration
creates nothing: the state comes back unchanged. -/
theorem terms_or_password_mismatch_rejected (st : CrmState)
    (inp : RegistrationInput) (catalog : List Nat) (now a b : Nat)
    (h : inp.terms_accepted = false ∨
         (inp.password ≠ "" ∧ inp.password_confirm ≠ "" ∧
          inp.password ≠ inp.password_confirm)) :
    registration_is_valid st.accounts inp = false ∧
    (runRegister st inp catalog now a b).1 = st ∧
    (runRegister st inp catalog now a b).2.isSome = true := by
  have hv : registration_is_valid st.accounts inp = false := by
    rcases h with h | ⟨h1, h2, h3⟩
    · simp [registration_is_valid, fields_required_ok, h]
    · simp [registration_is_valid, h3]
  refine ⟨hv, ?_, ?_⟩ <;>
    by_cases he : emailExists st.accounts inp.email <;>
      simp [runRegister, registerMember, hv, he]

/-- Witness for C10: the mismatched-password input of the test suite is
invalid and leaves the sample state unchanged. -/
theorem terms_or_password_mismatch_rejected_witness :
    (mismatchInput.password ≠ "" ∧ mismatchInput.password_confirm ≠ "" ∧
     mismatchInput.password ≠ mismatchInput.password_confirm) ∧
    registration_is_valid sampleState.accounts mismatchInput = false ∧
    (runRegister sampleState mismatchInput [1, 2] 0 100 200).1 =
      sampleState ∧
    (runRegister sampleState mismatchInput [1, 2] 0 100 200).2.isSome =
      true := by
  have h := terms_or_password_mismatch_rejected sampleState mismatchInput
    [1, 2] 0 100 200 (Or.inr ⟨by decide, by decide, by decide⟩)
  exact ⟨⟨by decide, by decide, by decide⟩, h.1, h.2.1, h.2.2⟩
